import Mathlib

/-!
Verification of the `toolsforexperiments/hardware` instrument-driver corpus.

This file gives a shallow embedding, in Lean, of the driver code that the
checked properties are about:

* `AD5760` — the Analog Devices AD5760 source driver
  (`tfe_hardware/qcodes_instrument_drivers/Sinko/AD5760.py`): register
  encode/decode formulas of `write`/`ask` and the `ramp_trial` loop.
* `ENA5071C` — the Agilent E5071C network-analyzer driver
  (`qcodes_instrument_drivers/Agilent/Agilent_ENA_5071C.py`): the `average`
  composite operation as a state transformer that also records the sequence
  of instrument commands it issues, and the `gettrace` reshape.
* `P9374A` — the Keysight P9374A network-analyzer driver
  (`tfe_hardware/qcodes_instrument_drivers/Keysight/Keysight_P9374A.py`):
  trace-catalog enumeration, the per-trace `get_raw` readers with their
  existence guard, and the polar trace decode.
* `SC5511A` — the SignalCore SC5511A generator driver
  (`tfe_hardware/qcodes_instrument_drivers/SignalCore/SignalCore_sc5511a.py`):
  the inverted `auto_level_disable` set/get pair.

Machine numbers are modelled with `ℚ` (the concrete inputs appearing in the
properties are exactly representable in binary floating point, so rational
arithmetic agrees with the Python float arithmetic on them), Python string
operations with Lean `String` functions, and Python exceptions with `Option`.
-/

namespace AD5760

/-- Python `int(q)` for a rational `q`: truncation toward zero
(floor for nonnegative arguments, ceiling for negative ones). -/
def pyTrunc (q : ℚ) : ℤ :=
  if 0 ≤ q then ⌊q⌋ else ⌈q⌉

/-- Register encoding used by `AD5760.write` (line 196-198):
`output_conv = int((output_level + 10)*65536/20)`. -/
def writeReg (output_level : ℚ) : ℤ :=
  pyTrunc ((output_level + 10) * 65536 / 20)

/-- Register decoding used by `AD5760.ask` (line 186-194):
`(float(int(reply, 16)) - 524288)*20/1048576` applied to the register value. -/
def askDecode (reg : ℤ) : ℚ :=
  ((reg : ℚ) - 524288) * 20 / 1048576

/-- Upward ramp loop body of `AD5760.ramp_trial`: each iteration does
`v_f += step` and then calls `self.voltage(v_f)`; the returned list is the
sequence of values passed to the voltage parameter. -/
def rampUpCalls (v_f step : ℚ) : Nat → List ℚ
  | 0 => []
  | n + 1 => (v_f + step) :: rampUpCalls (v_f + step) step n

/-- Downward ramp loop body of `AD5760.ramp_trial`: each iteration does
`v_f -= step` and then calls `self.voltage(v_f)`. -/
def rampDownCalls (v_f step : ℚ) : Nat → List ℚ
  | 0 => []
  | n + 1 => (v_f - step) :: rampDownCalls (v_f - step) step n

/-- `AD5760.ramp_trial` (line 159-174), as the list of voltage update calls it
performs.  `v_in` is the starting value read from `self.voltage()`; for
`ramp_to > v_in` the loop runs `range(int(num_steps+1))` times with
`num_steps = (ramp_to - v_in)/step + 1`, for `ramp_to < v_in` with
`num_steps = -(ramp_to - v_in)/step`, and a zero-distance ramp does nothing. -/
def ramp_trial (v_in ramp_to step : ℚ) : List ℚ :=
  if ramp_to > v_in then
    let num_steps := (ramp_to - v_in) / step + 1
    rampUpCalls v_in step (pyTrunc (num_steps + 1)).toNat
  else if ramp_to < v_in then
    let num_steps := -((ramp_to - v_in) / step)
    rampDownCalls v_in step (pyTrunc (num_steps + 1)).toNat
  else
    []

end AD5760

namespace ENA5071C

/-- Reshape a flat float sequence into consecutive (first, second) pairs;
models `data.reshape(int(np.size(data)/2), 2)` row content.  A trailing
unpaired element cannot occur where this is used (numpy raises instead, see
`gettrace`). -/
def reshapePairs : List ℚ → List (ℚ × ℚ)
  | a :: b :: rest => (a, b) :: reshapePairs rest
  | _ => []

/-- `Agilent_ENA_5071C.gettrace` (line 203-215), applied to the float sequence
parsed from the comma-separated `:CALC:DATA:FDATA?` reply: the data is
unconditionally reshaped into `int(size/2)` rows of 2 and transposed into
`[[mags], [phases]]`.  `none` models the `ValueError` numpy raises when the
element count does not equal `int(size/2) * 2`, i.e. when it is odd. -/
def gettrace (xs : List ℚ) : Option (List ℚ × List ℚ) :=
  if 2 * (xs.length / 2) = xs.length then
    let pairs := reshapePairs xs
    some (pairs.map Prod.fst, pairs.map Prod.snd)
  else
    none

/-- Parameter state of the E5071C driver touched by `average`:
the trace format and trigger source (wire strings), the averaging switches,
and the transport timeout.  `sweep_time` is the device-reported
`:SENS1:SWE:TIME?` value, read-only here. -/
structure VNAState where
  trform : String
  trigger_source : String
  averaging : Nat
  average_trigger : Nat
  avgnum : Nat
  timeout : ℚ
  sweep_time : ℚ
  deriving DecidableEq

/-- Instrument commands issued by `average`, in order. -/
inductive Cmd
  | setTrform (s : String)
  | setTrigSource (s : String)
  | setAveraging (n : Nat)
  | setAverageTrigger (n : Nat)
  | setAvgnum (n : Nat)
  | getTimeout
  | getSweepTime
  | setTimeout (t : ℚ)
  | triggerSingle
  | askOPC
  | getTrace
  deriving DecidableEq

/-- The `buffer_time = 0.5` constant of `average`. -/
def buffer_time : ℚ := 1 / 2

/-- `Agilent_ENA_5071C.average` (line 276-312) as a state transformer that also
records the instrument commands it issues, in program order.  `none` models the
failure of `assert number > 0`.  Both branches first save `prev_trform` (never
used afterwards in the source), set the trace format to `'PLOG'` and the
trigger source to `'BUS'`; the `number == 1` branch disables averaging and the
average trigger and issues one `:TRIG:SING`; the other branch enables both,
sets the average count, saves `prev_timeout` (also never used afterwards),
issues one `:TRIG:SING` and blocks on `*OPC?`.  Neither branch restores the
trace format or the trigger source. -/
def average (number : Nat) (s : VNAState) : Option (VNAState × List Cmd) :=
  if number = 0 then
    none
  else
    let s1 : VNAState := { s with trform := "PLOG" }
    let s2 : VNAState := { s1 with trigger_source := "BUS" }
    if number = 1 then
      let s3 : VNAState := { s2 with averaging := 0 }
      let s4 : VNAState := { s3 with average_trigger := 0 }
      let s_per_trace := s4.sweep_time
      let s5 : VNAState := { s4 with timeout := (number : ℚ) * s_per_trace + buffer_time }
      some (s5, [Cmd.setTrform "PLOG", Cmd.setTrigSource "BUS",
                 Cmd.setAveraging 0, Cmd.setAverageTrigger 0,
                 Cmd.getSweepTime, Cmd.setTimeout s5.timeout,
                 Cmd.triggerSingle, Cmd.getTrace])
    else
      let s3 : VNAState := { s2 with averaging := 1 }
      let s4 : VNAState := { s3 with average_trigger := 1 }
      let s5 : VNAState := { s4 with avgnum := number }
      let s_per_trace := s5.sweep_time
      let s6 : VNAState := { s5 with timeout := (number : ℚ) * s_per_trace + buffer_time }
      some (s6, [Cmd.setTrform "PLOG", Cmd.setTrigSource "BUS",
                 Cmd.setAveraging 1, Cmd.setAverageTrigger 1,
                 Cmd.setAvgnum number, Cmd.getTimeout,
                 Cmd.getSweepTime, Cmd.setTimeout s6.timeout,
                 Cmd.triggerSingle, Cmd.askOPC, Cmd.getTrace])

end ENA5071C

namespace P9374A

/-- Python `s.strip(c)` for a single-character argument: remove every leading
and trailing occurrence of `c`. -/
def pyStrip (c : Char) (s : String) : String :=
  ⟨((s.data.dropWhile (· = c)).reverse.dropWhile (· = c)).reverse⟩

/-- The channel slots scanned by `get_existing_traces_by_channel`:
Python `range(1, 9)`. -/
def channelSlots : List Nat := [1, 2, 3, 4, 5, 6, 7, 8]

/-- Split a list into the elements at even and at odd positions: Python
`traces[::2]` and `traces[1::2]`. -/
def alternate : List String → List String × List String
  | [] => ([], [])
  | [a] => ([a], [])
  | a :: b :: rest =>
      let p := alternate rest
      (a :: p.1, b :: p.2)

/-- Python `int(n.split('_')[-1])`; `none` models the `ValueError` raised on a
non-numeric trailing component. -/
def traceNumberOf (n : String) : Option Int :=
  ((n.splitOn "_").getLastD "").toInt?

/-- Per-channel body of `get_existing_traces_by_channel` (line 313-334) applied
to the raw `CALC{i}:PAR:CAT:EXT?` reply: after stripping quotes, a reply of
`"NO CATALOG"` means the channel is skipped (`some none`); otherwise the reply
is split on commas, names (even slots) are zipped with parameters (odd slots),
and each name contributes `int(name.split('_')[-1])`.  The outer `none` models
a `ValueError` escaping from `int`. -/
def channelEntries (raw : String) : Option (Option (List (Int × String))) :=
  let t := pyStrip '"' raw
  if t = "NO CATALOG" then
    some none
  else
    let toks := t.splitOn ","
    let p := alternate toks
    let pairs := p.1.zip p.2
    (pairs.mapM (fun np => (traceNumberOf np.1).map (fun k => (k, np.2)))).map some

/-- Fold of `get_existing_traces_by_channel` over a list of channel slots,
building the (channel, entries) association list; a channel whose catalog
reply is `"NO CATALOG"` is absent from the result. -/
def tracesFrom (replies : Nat → String) : List Nat → Option (List (Nat × List (Int × String)))
  | [] => some []
  | i :: rest =>
      match channelEntries (replies i) with
      | none => none
      | some none => tracesFrom replies rest
      | some (some l) => (tracesFrom replies rest).map (fun r => (i, l) :: r)

/-- `Keysight_P9374A_SingleChannel.get_existing_traces_by_channel`
(line 313-334), from the per-channel catalog replies. -/
def get_existing_traces_by_channel (replies : Nat → String) :
    Option (List (Nat × List (Int × String))) :=
  tracesFrom replies channelSlots

/-- Pair-reshape of the Keysight trace decode, identical in content to the
Agilent one: consecutive (first, second) pairs of the flat sequence; the pair
`(re, im)` stands for the complex value `re + j*im` formed by
`data[:, 0] + 1j*data[:, 1]`. -/
def reshapePairs : List ℚ → List (ℚ × ℚ)
  | a :: b :: rest => (a, b) :: reshapePairs rest
  | _ => []

/-- Interleave a pair list back into a flat sequence (the inverse reading of
`reshapePairs` on even-length input). -/
def flattenPairs (ys : List (ℚ × ℚ)) : List ℚ :=
  ys.flatMap (fun p => [p.1, p.2])

/-- Data-processing tail of `TraceData.get_raw` (line 72-77), applied to the
float sequence parsed from the comma-separated `FDATA?` reply:
`if self.data_fmt in ['POL'] and data.size % 2 == 0`, the flat data is
reshaped into pairs and combined into one complex value per point
(`Sum.inr`); otherwise the flat sequence is returned unchanged (`Sum.inl`). -/
def processData (data_fmt : Option String) (xs : List ℚ) : List ℚ ⊕ List (ℚ × ℚ) :=
  if data_fmt = some "POL" ∧ xs.length % 2 = 0 then
    Sum.inr (reshapePairs xs)
  else
    Sum.inl xs

/-- Abstract device state seen by the per-trace readers: the trace numbers
currently in the instrument's catalog (as produced by
`get_existing_traces`), and the replies the instrument gives to the
per-measurement queries, parsed to floats where the reader parses them. -/
structure Device where
  catalog : List Int
  xdata : Int → List ℚ
  fdataRep : Int → List ℚ
  fmtRep : Int → String
  parRep : Int → String

/-- Transport operations issued by the per-trace readers, in order.
`catalogQ` is the trace-catalog query of `get_existing_traces`; `xQ`, `fdataQ`
and `parQ` are the per-measurement data queries; `formQ`/`setForm` read and
write the display format around the `FDATA?` query. -/
inductive Query
  | catalogQ
  | xQ (n : Int)
  | formQ (n : Int)
  | setForm (n : Int) (f : String)
  | fdataQ (n : Int)
  | parQ (n : Int)
  deriving DecidableEq

/-- `Trace._get_xdata` (line 123-128): query the catalog; if the trace number
is absent return an empty array without issuing the `X?` query, else ask
`CALC:MEAS{n}:X?`.  Returns the value together with the queries issued. -/
def get_xdata (d : Device) (n : Int) : List ℚ × List Query :=
  if n ∈ d.catalog then
    (d.xdata n, [Query.catalogQ, Query.xQ n])
  else
    ([], [Query.catalogQ])

/-- `Trace._get_npts` (line 120-121): the length of `_get_xdata`. -/
def npts (d : Device) (n : Int) : Nat × List Query :=
  ((get_xdata d n).1.length, (get_xdata d n).2)

/-- `FrequencyData.get_raw` (line 43-49): query the catalog, then the guard
`self.instrument.npts() == 0 or self.trace_number not in traces` (note `npts`
issues its own catalog query); if it holds return `np.array([])`, else ask
`CALC:MEAS{n}:X?` and parse the floats. -/
def frequencyData_get_raw (d : Device) (n : Int) : List ℚ × List Query :=
  let traces := d.catalog
  let q1 := [Query.catalogQ]
  let np := npts d n
  if np.1 = 0 ∨ n ∉ traces then
    ([], q1 ++ np.2)
  else
    (d.xdata n, q1 ++ np.2 ++ [Query.xQ n])

/-- `TraceData.get_raw` (line 59-77): same guard as `FrequencyData.get_raw`,
returning `np.array([])` when it holds; otherwise (with `data_fmt` not None)
read the current display format, set it to `data_fmt`, ask `FDATA?`, restore
the saved format, and run the `processData` decode on the parsed floats. -/
def traceData_get_raw (data_fmt : Option String) (d : Device) (n : Int) :
    (List ℚ ⊕ List (ℚ × ℚ)) × List Query :=
  let traces := d.catalog
  let q1 := [Query.catalogQ]
  let np := npts d n
  if np.1 = 0 ∨ n ∉ traces then
    (Sum.inl [], q1 ++ np.2)
  else
    match data_fmt with
    | some f =>
        (processData data_fmt (d.fdataRep n),
         q1 ++ np.2 ++ [Query.formQ n, Query.setForm n f,
                        Query.fdataQ n, Query.setForm n (d.fmtRep n)])
    | none =>
        (processData data_fmt (d.fdataRep n), q1 ++ np.2 ++ [Query.fdataQ n])

/-- `SParameterData.get_raw` (line 22-28): same guard, returning the sentinel
string `'Trace is not on'` when it holds; otherwise ask
`:CALC1:MEAS{n}:PAR?` and strip quotes. -/
def sParameterData_get_raw (d : Device) (n : Int) : String × List Query :=
  let traces := d.catalog
  let q1 := [Query.catalogQ]
  let np := npts d n
  if np.1 = 0 ∨ n ∉ traces then
    ("Trace is not on", q1 ++ np.2)
  else
    (pyStrip '"' (d.parRep n), q1 ++ np.2 ++ [Query.parQ n])

/-- Decide whether a query touches measurement data (rather than the catalog
or the display format): the `X?`, `FDATA?` and `PAR?` queries. -/
def Query.isDataQuery : Query → Bool
  | Query.xQ _ => true
  | Query.fdataQ _ => true
  | Query.parQ _ => true
  | _ => false

end P9374A

namespace ParamSet

/-- Modelled from the spec: the set path of the parameter registry lives in the
qcodes framework, which is not among this repository's sources; per spec
section 4.1, `set(name, value)` "validates `value` against the declared domain
(numeric range, integer range, or closed enumeration); fails with
`ValidationError` before any transmission if invalid; otherwise formats and
sends the command".  `Numbers lo hi` is the qcodes `Numbers(min, max)`
validator used in the drivers' `add_parameter` declarations. -/
structure Numbers where
  lo : ℚ
  hi : ℚ
  deriving DecidableEq

/-- The validator of the Keysight P9374A `power` parameter
(`Keysight_P9374A.py` line 204-210): `vals=vals.Numbers(-85, 10)`. -/
def powerVals : Numbers := { lo := -85, hi := 10 }

/-- Outcome of a parameter set attempt. -/
inductive SetOutcome
  | accepted
  | validationError
  deriving DecidableEq

/-- Modelled from the spec (section 4.1): setting a parameter validates the
candidate against its `Numbers` domain first; the second component is the list
of values transmitted to the device during the call (empty on rejection,
the single formatted set command on acceptance). -/
def paramSet (v : Numbers) (x : ℚ) : SetOutcome × List ℚ :=
  if v.lo ≤ x ∧ x ≤ v.hi then
    (SetOutcome.accepted, [x])
  else
    (SetOutcome.validationError, [])

end ParamSet

namespace SC5511A

/-- The slice of the vendor device state the `auto_level_disable` parameter
touches: the `auto_pwr_disable` byte of `Operate_status_t`
(`SignalCore_sc5511a.py` line 36-51).  The vendor DLL calls
`sc5511a_set_auto_level_disable` / `sc5511a_get_device_status` are modelled as
a store to and a load of this field. -/
structure DLLState where
  auto_pwr_disable : Nat
  deriving DecidableEq

/-- Modelled vendor call: `sc5511a_set_auto_level_disable(handle, c_enable)`
stores the byte that `sc5511a_get_device_status` later reports as
`operate_status_t.auto_pwr_disable`. -/
def sc5511a_set_auto_level_disable (st : DLLState) (enable : Nat) : DLLState :=
  { st with auto_pwr_disable := enable }

/-- `SignalCore_SC5511A.do_set_auto_level_disable` (line 280-290): the argument
is inverted (`1 ↦ 0`, `0 ↦ 1`, anything else passed through) before being
handed to the DLL. -/
def do_set_auto_level_disable (st : DLLState) (enable : Nat) : DLLState :=
  let e := if enable = 1 then 0 else if enable = 0 then 1 else enable
  sc5511a_set_auto_level_disable st e

/-- `SignalCore_SC5511A.do_get_auto_level_disable` (line 292-302): read the
`auto_pwr_disable` status field and invert it (`1 ↦ 0`, `0 ↦ 1`, anything else
passed through). -/
def do_get_auto_level_disable (st : DLLState) : Nat :=
  let enabled := st.auto_pwr_disable
  if enabled = 1 then 0 else if enabled = 0 then 1 else enabled

end SC5511A

/-! ## Helper lemmas -/

/-- The pair reshape halves the length (rounding down). -/
theorem reshapePairs_length : ∀ xs : List ℚ, (P9374A.reshapePairs xs).length = xs.length / 2
  | [] => by simp [P9374A.reshapePairs]
  | [a] => by simp [P9374A.reshapePairs]
  | a :: b :: rest => by
      have ih := reshapePairs_length rest
      simp only [P9374A.reshapePairs, List.length_cons, ih]
      omega

/-- On even-length input, flattening the reshaped pairs gives back the input:
the pairs are exactly the consecutive (first, second) element pairs, in
order. -/
theorem flattenPairs_reshapePairs :
    ∀ xs : List ℚ, xs.length % 2 = 0 →
      P9374A.flattenPairs (P9374A.reshapePairs xs) = xs
  | [], _ => rfl
  | [a], h => by simp at h
  | a :: b :: rest, h => by
      have hr : rest.length % 2 = 0 := by simp at h; omega
      have ih := flattenPairs_reshapePairs rest hr
      simp only [P9374A.reshapePairs, P9374A.flattenPairs, List.flatMap_cons] at ih ⊢
      simp [ih]

/-! ## Claim theorems -/

/-- C2 counterexample: ramping from 0 to 1 with step 0.25 does not perform the
claimed 5 update calls at `0.25, 0.5, 0.75, 1.0, 1.25`; the loop runs
`range(int(num_steps + 1))` = `range(6)` times and the call sequence is
`0.25, 0.5, 0.75, 1.0, 1.25, 1.5`. -/
theorem ramp_zero_one_quarter_cex :
    AD5760.ramp_trial 0 1 (1 / 4) = [1 / 4, 1 / 2, 3 / 4, 1, 5 / 4, 3 / 2] ∧
    AD5760.ramp_trial 0 1 (1 / 4) ≠ [1 / 4, 1 / 2, 3 / 4, 1, 5 / 4] := by
  have h : AD5760.ramp_trial 0 1 (1 / 4) = [1 / 4, 1 / 2, 3 / 4, 1, 5 / 4, 3 / 2] := by
    unfold AD5760.ramp_trial AD5760.pyTrunc
    norm_num [AD5760.rampUpCalls]
  refine ⟨h, ?_⟩
  rw [h]
  intro hc
  exact absurd (congrArg List.length hc) (by simp)

/-- C2 (amended): ramping from current value 0 to target 1 with step 0.25
performs exactly 6 voltage update calls, at the values
`0.25, 0.5, 0.75, 1.0, 1.25, 1.5`, deterministically: the loop iteration count
is `int(num_steps + 1)` with `num_steps = distance/step + 1`, one more than
the step-count formula of the claim. -/
theorem ramp_zero_one_quarter_six_steps :
    AD5760.ramp_trial 0 1 (1 / 4) = [1 / 4, 1 / 2, 3 / 4, 1, 5 / 4, 3 / 2] ∧
    (AD5760.ramp_trial 0 1 (1 / 4)).length = 6 := by
  have h : AD5760.ramp_trial 0 1 (1 / 4) = [1 / 4, 1 / 2, 3 / 4, 1, 5 / 4, 3 / 2] := by
    unfold AD5760.ramp_trial AD5760.pyTrunc
    norm_num [AD5760.rampUpCalls]
  exact ⟨h, by rw [h]; rfl⟩

/-- C3 (code bug): the AD5760 set/get round trip does not recover the value up
to one quantization step.  Setting the voltage to 0 writes register value
`int((0 + 10)*65536/20) = 32768`, and reading it back decodes
`(32768 - 524288)*20/1048576 = -9.375`, which differs from 0 by far more than
either candidate quantization step (`20/65536` or `20/1048576`): the encoder
of `write` and the decoder of `ask` use mismatched scale factors. -/
theorem ad5760_roundtrip_fails_at_zero :
    AD5760.writeReg 0 = 32768 ∧
    AD5760.askDecode (AD5760.writeReg 0) = -75 / 8 ∧
    |AD5760.askDecode (AD5760.writeReg 0) - 0| > 20 / 65536 := by
  have h : AD5760.writeReg 0 = 32768 := by
    unfold AD5760.writeReg AD5760.pyTrunc
    norm_num
  have h2 : AD5760.askDecode (AD5760.writeReg 0) = -75 / 8 := by
    rw [h]; unfold AD5760.askDecode; norm_num
  refine ⟨h, h2, ?_⟩
  rw [h2, sub_zero, abs_of_nonpos (by norm_num)]
  norm_num

/-- C4: decoding a polar-format trace reply of `2k` floats
(`TraceData.get_raw` with `data_fmt = 'POL'`) yields exactly `k` complex
points, each formed as first-of-pair + j·second-of-pair: the decode takes the
pair branch, the resulting pair list has length `k`, and interleaving the
pairs back reproduces the input sequence. -/
theorem polar_pairs_decode (xs : List ℚ) (k : Nat) (h : xs.length = 2 * k) :
    P9374A.processData (some "POL") xs = Sum.inr (P9374A.reshapePairs xs) ∧
    (P9374A.reshapePairs xs).length = k ∧
    P9374A.flattenPairs (P9374A.reshapePairs xs) = xs := by
  have heven : xs.length % 2 = 0 := by omega
  refine ⟨by simp [P9374A.processData, heven], ?_,
    flattenPairs_reshapePairs xs heven⟩
  rw [reshapePairs_length, h]
  omega

/-- C4 witness: the reply `"1,0,2,0,3,1"` decodes to the three complex points
`(1+0j), (2+0j), (3+1j)`, represented as (re, im) pairs. -/
theorem polar_pairs_decode_witness :
    P9374A.processData (some "POL") [1, 0, 2, 0, 3, 1] =
      Sum.inr [(1, 0), (2, 0), (3, 1)] := by
  have h := polar_pairs_decode [1, 0, 2, 0, 3, 1] 3 (by simp)
  rw [h.1]
  simp [P9374A.reshapePairs]

/-- C5 counterexample: the reshape-to-pairs transform is not limited to
even-length sequences in every trace-decoding path of the repository.  On the
odd-length reply `1,2,3` the Keysight `TraceData.get_raw` path does return the
flat sequence unchanged, but the Agilent `gettrace` path reshapes
unconditionally and fails (numpy `ValueError`, modelled as `none`) instead of
returning the flat sequence. -/
theorem gettrace_odd_raises_cex :
    P9374A.processData (some "POL") [1, 2, 3] = Sum.inl [1, 2, 3] ∧
    ENA5071C.gettrace [1, 2, 3] = none := by
  constructor
  · simp [P9374A.processData]
  · simp [ENA5071C.gettrace]

/-- C5 (amended): in the Keysight `TraceData.get_raw` decode path, every
odd-length comma-separated numeric reply is returned as the flat float
sequence unchanged, and the reshape-to-pairs transform applies only to
even-length sequences; the Agilent `gettrace` path instead reshapes
unconditionally and errors on odd-length replies. -/
theorem odd_reply_flat_amended (xs : List ℚ) (h : xs.length % 2 = 1) :
    P9374A.processData (some "POL") xs = Sum.inl xs ∧
    ENA5071C.gettrace xs = none := by
  constructor
  · simp [P9374A.processData, h]
  · unfold ENA5071C.gettrace
    rw [if_neg]
    omega

/-- C5 witness: the amended claim at the odd-length reply `[5]`. -/
theorem odd_reply_flat_amended_witness :
    P9374A.processData (some "POL") [5] = Sum.inl [5] ∧
    ENA5071C.gettrace [5] = none :=
  odd_reply_flat_amended [5] (by simp)

/-- C6: for every parameter with a declared `Numbers` domain and every value
outside that domain, the set path rejects with a validation error and issues
zero transport calls (the transmission list is empty), leaving the device
untouched. -/
theorem out_of_domain_set_rejected (v : ParamSet.Numbers) (x : ℚ)
    (h : x < v.lo ∨ v.hi < x) :
    ParamSet.paramSet v x = (ParamSet.SetOutcome.validationError, []) := by
  have hne : ¬(v.lo ≤ x ∧ x ≤ v.hi) := by
    rcases h with h | h <;> intro hc <;> rcases hc with ⟨h1, h2⟩ <;> linarith
  simp [ParamSet.paramSet, hne]

/-- C6 witness: setting the Keysight `power` parameter (domain
`Numbers(-85, 10)`) to the out-of-domain value 11 is rejected with no
transmission. -/
theorem out_of_domain_set_rejected_witness :
    ParamSet.paramSet ParamSet.powerVals 11 =
      (ParamSet.SetOutcome.validationError, []) :=
  out_of_domain_set_rejected ParamSet.powerVals 11
    (Or.inr (by norm_num [ParamSet.powerVals]))

/-- C10: for `x` in `{0, 1}`, `do_set_auto_level_disable(x)` passes `1 - x` to
the DLL (the stored `auto_pwr_disable` status byte becomes `1 - x`),
`do_get_auto_level_disable` returns the inverse of the stored status byte, and
consequently a set of `x` followed by a get returns `x`. -/
theorem auto_level_disable_inversion (x : Nat) (st : SC5511A.DLLState)
    (hx : x = 0 ∨ x = 1) :
    (SC5511A.do_set_auto_level_disable st x).auto_pwr_disable = 1 - x ∧
    (∀ st2 : SC5511A.DLLState, st2.auto_pwr_disable = 1 - x →
      SC5511A.do_get_auto_level_disable st2 = x) ∧
    SC5511A.do_get_auto_level_disable (SC5511A.do_set_auto_level_disable st x) = x := by
  rcases hx with h | h <;> subst h <;>
    refine ⟨?_, ?_, ?_⟩ <;>
    simp [SC5511A.do_set_auto_level_disable, SC5511A.do_get_auto_level_disable,
          SC5511A.sc5511a_set_auto_level_disable] <;>
    intro st2 h2 <;> simp [h2]

open ENA5071C in
/-- C8: `average(count)` with `count == 1` never enables hardware averaging —
it sets `averaging` to 0 and `average_trigger` to 0, issues exactly one
trigger and no `*OPC?` wait; with `count >= 2` it sets `averaging` to 1,
`average_trigger` to 1 and `avgnum` to `count`, issues a single trigger, and
blocks on the `*OPC?` operation-complete query. -/
theorem average_single_vs_multi_paths (n : Nat) (s st : ENA5071C.VNAState)
    (log : List ENA5071C.Cmd) (h : ENA5071C.average n s = some (st, log)) :
    (n = 1 →
      log.count (Cmd.setAveraging 0) = 1 ∧
      log.count (Cmd.setAverageTrigger 0) = 1 ∧
      log.count Cmd.triggerSingle = 1 ∧
      Cmd.setAveraging 1 ∉ log ∧
      Cmd.askOPC ∉ log) ∧
    (2 ≤ n →
      log.count (Cmd.setAveraging 1) = 1 ∧
      log.count (Cmd.setAverageTrigger 1) = 1 ∧
      log.count (Cmd.setAvgnum n) = 1 ∧
      log.count Cmd.triggerSingle = 1 ∧
      Cmd.askOPC ∈ log) := by
  unfold ENA5071C.average at h
  match n with
  | 0 => simp at h
  | 1 =>
    simp only [if_neg (by omega : ¬(1 : Nat) = 0), if_pos rfl, if_true,
      Option.some.injEq, Prod.mk.injEq] at h
    obtain ⟨hst, hlog⟩ := h
    subst hlog
    refine ⟨fun _ => ?_, fun h2 => by omega⟩
    refine ⟨?_, ?_, ?_, ?_, ?_⟩ <;> simp [List.count_cons]
  | (m + 2) =>
    simp only [if_neg (by omega : ¬(m + 2 : Nat) = 0),
      if_neg (by omega : ¬(m + 2 : Nat) = 1),
      Option.some.injEq, Prod.mk.injEq] at h
    obtain ⟨hst, hlog⟩ := h
    subst hlog
    refine ⟨fun h1 => by omega, fun _ => ?_⟩
    refine ⟨?_, ?_, ?_, ?_, ?_⟩ <;> simp [List.count_cons]

open ENA5071C in
/-- C8 witness: the single-shot path at `count = 1` and the averaged path at
`count = 5`, both from the state with `trform = 'MLOG'`,
`trigger_source = 'INT'`, `sweep_time = 1`. -/
theorem average_single_vs_multi_paths_witness :
    ([Cmd.setTrform "PLOG", Cmd.setTrigSource "BUS",
      Cmd.setAveraging 0, Cmd.setAverageTrigger 0,
      Cmd.getSweepTime, Cmd.setTimeout (3 / 2),
      Cmd.triggerSingle, Cmd.getTrace].count (Cmd.setAveraging 0) = 1 ∧
     [Cmd.setTrform "PLOG", Cmd.setTrigSource "BUS",
      Cmd.setAveraging 0, Cmd.setAverageTrigger 0,
      Cmd.getSweepTime, Cmd.setTimeout (3 / 2),
      Cmd.triggerSingle, Cmd.getTrace].count (Cmd.setAverageTrigger 0) = 1 ∧
     [Cmd.setTrform "PLOG", Cmd.setTrigSource "BUS",
      Cmd.setAveraging 0, Cmd.setAverageTrigger 0,
      Cmd.getSweepTime, Cmd.setTimeout (3 / 2),
      Cmd.triggerSingle, Cmd.getTrace].count Cmd.triggerSingle = 1 ∧
     Cmd.setAveraging 1 ∉
       [Cmd.setTrform "PLOG", Cmd.setTrigSource "BUS",
        Cmd.setAveraging 0, Cmd.setAverageTrigger 0,
        Cmd.getSweepTime, Cmd.setTimeout (3 / 2),
        Cmd.triggerSingle, Cmd.getTrace] ∧
     Cmd.askOPC ∉
       [Cmd.setTrform "PLOG", Cmd.setTrigSource "BUS",
        Cmd.setAveraging 0, Cmd.setAverageTrigger 0,
        Cmd.getSweepTime, Cmd.setTimeout (3 / 2),
        Cmd.triggerSingle, Cmd.getTrace]) ∧
    ([Cmd.setTrform "PLOG", Cmd.setTrigSource "BUS",
      Cmd.setAveraging 1, Cmd.setAverageTrigger 1,
      Cmd.setAvgnum 5, Cmd.getTimeout,
      Cmd.getSweepTime, Cmd.setTimeout (11 / 2),
      Cmd.triggerSingle, Cmd.askOPC, Cmd.getTrace].count (Cmd.setAveraging 1) = 1 ∧
     [Cmd.setTrform "PLOG", Cmd.setTrigSource "BUS",
      Cmd.setAveraging 1, Cmd.setAverageTrigger 1,
      Cmd.setAvgnum 5, Cmd.getTimeout,
      Cmd.getSweepTime, Cmd.setTimeout (11 / 2),
      Cmd.triggerSingle, Cmd.askOPC, Cmd.getTrace].count (Cmd.setAverageTrigger 1) = 1 ∧
     [Cmd.setTrform "PLOG", Cmd.setTrigSource "BUS",
      Cmd.setAveraging 1, Cmd.setAverageTrigger 1,
      Cmd.setAvgnum 5, Cmd.getTimeout,
      Cmd.getSweepTime, Cmd.setTimeout (11 / 2),
      Cmd.triggerSingle, Cmd.askOPC, Cmd.getTrace].count (Cmd.setAvgnum 5) = 1 ∧
     [Cmd.setTrform "PLOG", Cmd.setTrigSource "BUS",
      Cmd.setAveraging 1, Cmd.setAverageTrigger 1,
      Cmd.setAvgnum 5, Cmd.getTimeout,
      Cmd.getSweepTime, Cmd.setTimeout (11 / 2),
      Cmd.triggerSingle, Cmd.askOPC, Cmd.getTrace].count Cmd.triggerSingle = 1 ∧
     Cmd.askOPC ∈
       [Cmd.setTrform "PLOG", Cmd.setTrigSource "BUS",
        Cmd.setAveraging 1, Cmd.setAverageTrigger 1,
        Cmd.setAvgnum 5, Cmd.getTimeout,
        Cmd.getSweepTime, Cmd.setTimeout (11 / 2),
        Cmd.triggerSingle, Cmd.askOPC, Cmd.getTrace]) := by
  constructor
  · exact (average_single_vs_multi_paths 1 ⟨"MLOG", "INT", 1, 1, 7, 10, 1⟩
      ⟨"PLOG", "BUS", 0, 0, 7, 3 / 2, 1⟩ _
      (by simp [ENA5071C.average, ENA5071C.buffer_time]; norm_num)).1 rfl
  · exact (average_single_vs_multi_paths 5 ⟨"MLOG", "INT", 1, 1, 7, 10, 1⟩
      ⟨"PLOG", "BUS", 1, 1, 5, 11 / 2, 1⟩ _
      (by simp [ENA5071C.average, ENA5071C.buffer_time]; norm_num)).2 (by omega)

/-- C1 counterexample: `average(1)` from the prior state
`trigger_source = 'INT'`, `trform = 'MLOG'` completes (successfully) with
`trform = 'PLOG'` and `trigger_source = 'BUS'` — the prior values are not
restored. -/
theorem average_never_restores_cex :
    (ENA5071C.average 1 ⟨"MLOG", "INT", 1, 1, 7, 10, 1⟩).map
      (fun p => (p.1.trform, p.1.trigger_source)) = some ("PLOG", "BUS") ∧
    ("PLOG" ≠ "MLOG" ∧ "BUS" ≠ "INT") := by
  refine ⟨?_, by decide, by decide⟩
  simp [ENA5071C.average]

/-- C1 (amended): `average(count)` restores neither `trigger_source` nor
`trform`: on every completing call, whatever their prior values, it leaves
`trform = 'PLOG'` and `trigger_source = 'BUS'` (the values it set at the
start); the source contains no cleanup path that runs on a timeout or an
exception either. -/
theorem average_completes_in_plog_bus (n : Nat) (s st : ENA5071C.VNAState)
    (log : List ENA5071C.Cmd) (h : ENA5071C.average n s = some (st, log)) :
    st.trform = "PLOG" ∧ st.trigger_source = "BUS" := by
  unfold ENA5071C.average at h
  match n with
  | 0 => simp at h
  | 1 =>
    simp only [if_neg (by omega : ¬(1 : Nat) = 0), if_pos rfl, if_true,
      Option.some.injEq, Prod.mk.injEq] at h
    obtain ⟨hst, hlog⟩ := h
    subst hst
    exact ⟨rfl, rfl⟩
  | (m + 2) =>
    simp only [if_neg (by omega : ¬(m + 2 : Nat) = 0),
      if_neg (by omega : ¬(m + 2 : Nat) = 1),
      Option.some.injEq, Prod.mk.injEq] at h
    obtain ⟨hst, hlog⟩ := h
    subst hst
    exact ⟨rfl, rfl⟩

open ENA5071C in
/-- C1 witness (for the amended claim): the completing `average(1)` call of the
counterexample ends with `trform = 'PLOG'`, `trigger_source = 'BUS'`. -/
theorem average_completes_in_plog_bus_witness :
    (⟨"PLOG", "BUS", 0, 0, 7, 3 / 2, 1⟩ : ENA5071C.VNAState).trform = "PLOG" ∧
    (⟨"PLOG", "BUS", 0, 0, 7, 3 / 2, 1⟩ : ENA5071C.VNAState).trigger_source = "BUS" :=
  average_completes_in_plog_bus 1 ⟨"MLOG", "INT", 1, 1, 7, 10, 1⟩
    ⟨"PLOG", "BUS", 0, 0, 7, 3 / 2, 1⟩
    [Cmd.setTrform "PLOG", Cmd.setTrigSource "BUS",
     Cmd.setAveraging 0, Cmd.setAverageTrigger 0,
     Cmd.getSweepTime, Cmd.setTimeout (3 / 2),
     Cmd.triggerSingle, Cmd.getTrace]
    (by simp [ENA5071C.average, ENA5071C.buffer_time]; norm_num)

/-- Skip lemma for the catalog enumeration: a channel whose catalog reply
parses to the skip marker (`some none`, i.e. a `"NO CATALOG"` reply) never
appears among the keys of a successful enumeration over any slot list. -/
theorem tracesFrom_skips (replies : Nat → String) (ch : Nat)
    (hch : P9374A.channelEntries (replies ch) = some none) :
    ∀ L : List Nat, ∀ d, P9374A.tracesFrom replies L = some d →
      ch ∉ d.map Prod.fst
  | [], d, h => by
      simp [P9374A.tracesFrom] at h
      subst h
      simp
  | i :: rest, d, h => by
      by_cases hic : i = ch
      · subst hic
        rw [P9374A.tracesFrom, hch] at h
        exact tracesFrom_skips replies i hch rest d h
      · unfold P9374A.tracesFrom at h
        cases hce : P9374A.channelEntries (replies i) with
        | none => rw [hce] at h; simp at h
        | some o =>
          cases o with
          | none => rw [hce] at h; exact tracesFrom_skips replies ch hch rest d h
          | some l =>
            rw [hce] at h
            cases hr : P9374A.tracesFrom replies rest with
            | none => rw [hr] at h; simp at h
            | some r =>
              rw [hr] at h
              simp only [Option.map_some', Option.some.injEq] at h
              subst h
              simp only [List.map_cons, List.mem_cons]
              push_neg
              exact ⟨fun hc => hic hc.symm, tracesFrom_skips replies ch hch rest r hr⟩

/-- C7: a channel slot whose catalog query reply is `"NO CATALOG"` contributes
zero traces to `get_existing_traces_by_channel` — the per-channel parse yields
the skip marker rather than an error, the channel is absent from any returned
dictionary, and when every slot replies this way the enumeration returns the
empty dictionary without error. -/
theorem no_catalog_channel_skipped (replies : Nat → String) (ch : Nat)
    (_h1 : ch ∈ P9374A.channelSlots)
    (h2 : P9374A.pyStrip '"' (replies ch) = "NO CATALOG") :
    P9374A.channelEntries (replies ch) = some none ∧
    (∀ d, P9374A.get_existing_traces_by_channel replies = some d →
      ch ∉ d.map Prod.fst) ∧
    P9374A.get_existing_traces_by_channel (fun _ => replies ch) = some [] := by
  have hce : P9374A.channelEntries (replies ch) = some none := by
    simp [P9374A.channelEntries, h2]
  refine ⟨hce, fun d h => tracesFrom_skips replies ch hce _ d h, ?_⟩
  simp [P9374A.get_existing_traces_by_channel, P9374A.channelSlots,
    P9374A.tracesFrom, hce]

/-- C7 witness: with every slot replying `"NO CATALOG"`, channel 3 yields the
skip marker and the enumeration is the empty dictionary, with 3 absent. -/
theorem no_catalog_channel_skipped_witness :
    P9374A.channelEntries "NO CATALOG" = some none ∧
    P9374A.get_existing_traces_by_channel (fun _ => "NO CATALOG") = some [] ∧
    (3 : Nat) ∉ ([] : List (Nat × List (Int × String))).map Prod.fst := by
  have h := no_catalog_channel_skipped (fun _ => "NO CATALOG") 3 (by decide) (by decide)
  exact ⟨h.1, h.2.2, h.2.1 [] h.2.2⟩

open P9374A in
/-- C9 counterexample: with trace 2 present in the catalog but having zero
points, reading the frequency axis of trace 2 returns the empty array, yet the
`npts` guard itself has asked `CALC:MEAS2:X?` — a data query — so the original
claim's "without issuing a data query" fails in its zero-points case. -/
theorem zero_points_read_issues_xquery_cex :
    P9374A.frequencyData_get_raw
        ⟨[2], fun _ => [], fun _ => [], fun _ => "", fun _ => ""⟩ 2 =
      ([], [Query.catalogQ, Query.catalogQ, Query.xQ 2]) ∧
    (Query.xQ 2).isDataQuery = true ∧
    ¬((P9374A.frequencyData_get_raw
        ⟨[2], fun _ => [], fun _ => [], fun _ => "", fun _ => ""⟩ 2).2.all
       (fun q => !q.isDataQuery) = true) := by
  refine ⟨?_, rfl, ?_⟩ <;> decide

open P9374A in
/-- C9 (amended): every per-trace reader (complex trace data, frequency axis,
S-parameter selector) first queries the trace catalog; when the trace number
is not among the existing traces, or the trace has zero points, each returns
its empty/sentinel result (`np.array([])`, `np.array([])`,
`'Trace is not on'`) and never raises.  When the trace is absent from the
catalog the only transport operations issued are the two catalog queries — no
data query; when the trace is present but has zero points, the `npts` guard
itself issues one `CALC:MEAS{n}:X?` data query before short-circuiting, and
the content queries (`FDATA?`, `PAR?`) are never issued in either case. -/
theorem absent_trace_reads_guarded (d : P9374A.Device) (n : Int)
    (h : n ∉ d.catalog ∨ d.xdata n = []) :
    (P9374A.frequencyData_get_raw d n).1 = [] ∧
    (P9374A.traceData_get_raw (some "POL") d n).1 = Sum.inl [] ∧
    (P9374A.sParameterData_get_raw d n).1 = "Trace is not on" ∧
    (n ∉ d.catalog →
      (P9374A.frequencyData_get_raw d n).2 = [Query.catalogQ, Query.catalogQ] ∧
      (P9374A.traceData_get_raw (some "POL") d n).2 =
        [Query.catalogQ, Query.catalogQ] ∧
      (P9374A.sParameterData_get_raw d n).2 =
        [Query.catalogQ, Query.catalogQ]) ∧
    (n ∈ d.catalog →
      (P9374A.frequencyData_get_raw d n).2 =
        [Query.catalogQ, Query.catalogQ, Query.xQ n] ∧
      (P9374A.traceData_get_raw (some "POL") d n).2 =
        [Query.catalogQ, Query.catalogQ, Query.xQ n] ∧
      (P9374A.sParameterData_get_raw d n).2 =
        [Query.catalogQ, Query.catalogQ, Query.xQ n] ∧
      Query.fdataQ n ∉ (P9374A.traceData_get_raw (some "POL") d n).2 ∧
      Query.parQ n ∉ (P9374A.sParameterData_get_raw d n).2) := by
  by_cases hc : n ∈ d.catalog
  · have hz : d.xdata n = [] := h.resolve_left (fun hna => hna hc)
    have hx : P9374A.get_xdata d n = ([], [Query.catalogQ, Query.xQ n]) := by
      simp [P9374A.get_xdata, hc, hz]
    have hn : P9374A.npts d n = (0, [Query.catalogQ, Query.xQ n]) := by
      simp [P9374A.npts, hx]
    have h1 : P9374A.frequencyData_get_raw d n =
        ([], [Query.catalogQ, Query.catalogQ, Query.xQ n]) := by
      simp [P9374A.frequencyData_get_raw, hn]
    have h2 : P9374A.traceData_get_raw (some "POL") d n =
        (Sum.inl [], [Query.catalogQ, Query.catalogQ, Query.xQ n]) := by
      simp [P9374A.traceData_get_raw, hn]
    have h3 : P9374A.sParameterData_get_raw d n =
        ("Trace is not on", [Query.catalogQ, Query.catalogQ, Query.xQ n]) := by
      simp [P9374A.sParameterData_get_raw, hn]
    refine ⟨by rw [h1], by rw [h2], by rw [h3],
      fun hna => absurd hc hna, fun _ => ?_⟩
    refine ⟨by rw [h1], by rw [h2], by rw [h3], by rw [h2]; simp,
      by rw [h3]; simp⟩
  · have hx : P9374A.get_xdata d n = ([], [Query.catalogQ]) := by
      simp [P9374A.get_xdata, hc]
    have hn : P9374A.npts d n = (0, [Query.catalogQ]) := by
      simp [P9374A.npts, hx]
    have h1 : P9374A.frequencyData_get_raw d n =
        ([], [Query.catalogQ, Query.catalogQ]) := by
      simp [P9374A.frequencyData_get_raw, hn]
    have h2 : P9374A.traceData_get_raw (some "POL") d n =
        (Sum.inl [], [Query.catalogQ, Query.catalogQ]) := by
      simp [P9374A.traceData_get_raw, hn]
    have h3 : P9374A.sParameterData_get_raw d n =
        ("Trace is not on", [Query.catalogQ, Query.catalogQ]) := by
      simp [P9374A.sParameterData_get_raw, hn]
    exact ⟨by rw [h1], by rw [h2], by rw [h3],
      fun _ => ⟨by rw [h1], by rw [h2], by rw [h3]⟩,
      fun hcc => absurd hcc hc⟩

open P9374A in
/-- C9 witness: the amended claim at both cases — trace 2 absent from a
catalog holding only trace 1 (empty results, two catalog queries, no data
query), and trace 2 present in the catalog but with zero points (empty
results, with the guard's single `X?` query and no content query). -/
theorem absent_trace_reads_guarded_witness :
    ((P9374A.frequencyData_get_raw
        ⟨[1], fun _ => [], fun _ => [], fun _ => "", fun _ => ""⟩ 2).1 = [] ∧
     (P9374A.sParameterData_get_raw
        ⟨[1], fun _ => [], fun _ => [], fun _ => "", fun _ => ""⟩ 2).1 =
       "Trace is not on" ∧
     (P9374A.frequencyData_get_raw
        ⟨[1], fun _ => [], fun _ => [], fun _ => "", fun _ => ""⟩ 2).2 =
       [Query.catalogQ, Query.catalogQ]) ∧
    ((P9374A.frequencyData_get_raw
        ⟨[2], fun _ => [], fun _ => [], fun _ => "", fun _ => ""⟩ 2).1 = [] ∧
     (P9374A.frequencyData_get_raw
        ⟨[2], fun _ => [], fun _ => [], fun _ => "", fun _ => ""⟩ 2).2 =
       [Query.catalogQ, Query.catalogQ, Query.xQ 2] ∧
     Query.fdataQ 2 ∉ (P9374A.traceData_get_raw (some "POL")
        ⟨[2], fun _ => [], fun _ => [], fun _ => "", fun _ => ""⟩ 2).2) := by
  have ha := absent_trace_reads_guarded
    ⟨[1], fun _ => [], fun _ => [], fun _ => "", fun _ => ""⟩ 2 (Or.inl (by decide))
  have hz := absent_trace_reads_guarded
    ⟨[2], fun _ => [], fun _ => [], fun _ => "", fun _ => ""⟩ 2 (Or.inr rfl)
  exact ⟨⟨ha.1, ha.2.2.1, (ha.2.2.2.1 (by decide)).1⟩,
    ⟨hz.1, (hz.2.2.2.2 (by decide)).1, (hz.2.2.2.2 (by decide)).2.2.2.1⟩⟩

/-- C10 witness: setting `auto_level_disable` to 1 stores 0 on the device, and
the subsequent get returns 1. -/
theorem auto_level_disable_inversion_witness :
    (SC5511A.do_set_auto_level_disable ⟨0⟩ 1).auto_pwr_disable = 1 - 1 ∧
    SC5511A.do_get_auto_level_disable (SC5511A.do_set_auto_level_disable ⟨0⟩ 1) = 1 :=
  ⟨(auto_level_disable_inversion 1 ⟨0⟩ (Or.inr rfl)).1,
   (auto_level_disable_inversion 1 ⟨0⟩ (Or.inr rfl)).2.2⟩
